import Mathlib

/-
  Verification of the Stream-Deck-Esp32 host application
  (src/Stream-Deck-Esp32.py) against its natural-language design
  specification.

  The shallow embedding below translates the transport managers
  (SerialManager, WifiManager), the action engine (ActionManager.perform),
  the window toggle engine (WindowManager.toggle_application), and the
  device protocol router (Esp32DeckApp._process_button_message,
  Esp32DeckApp._send_led_color_command, Esp32DeckApp._connect_any) into
  executable Lean definitions.  Python strings are modelled as Lean
  String values, with character-level operations carried out on
  String.data (a Python str is a sequence of code points, which List
  Char models exactly).  Python dynamic values (JSON-shaped
  configuration data and action payloads) are modelled by the PyVal
  inductive below.  Side effects (library calls, log calls, callback
  invocations) are modelled as explicit effect traces or state fields.
-/

namespace StreamDeck

/-! ## Python dynamic values

The configuration data and action payloads that flow through the
program are JSON-shaped: strings, lists, and string-keyed dicts.
`PyVal.str`, `PyVal.list` and `PyVal.dict` model exactly those shapes.
-/

inductive PyVal where
  | str (s : String)
  | list (l : List PyVal)
  | dict (d : List (String × PyVal))

/- Size measure for PyVal, used for termination of recursive
definitions over payloads (mutually with the list and dict forms). -/
mutual
def pySize : PyVal → Nat
  | .str _ => 1
  | .list l => 1 + pySizeL l
  | .dict d => 1 + pySizeD d
def pySizeL : List PyVal → Nat
  | [] => 0
  | v :: r => 1 + pySize v + pySizeL r
def pySizeD : List (String × PyVal) → Nat
  | [] => 0
  | (_, v) :: r => 1 + pySize v + pySizeD r
end

/-- Lookup in a Python dict (model of `d[k]` / `d.get(k)` for the
string-keyed dicts used by the program; keys are unique in dicts read
from JSON, and lookup returns the first matching entry). -/
def dictFind : List (String × PyVal) → String → Option PyVal
  | [], _ => none
  | (k, v) :: rest, key => if k = key then some v else dictFind rest key

/-- Model of Python truthiness for the PyVal shapes: empty strings,
empty lists and empty dicts are falsy. -/
def pyTruthy : PyVal → Bool
  | .str s => s != ""
  | .list l => !l.isEmpty
  | .dict d => !d.isEmpty

theorem dictFind_pySize {d : List (String × PyVal)} {k : String} {v : PyVal}
    (h : dictFind d k = some v) : pySize v < pySizeD d := by
  induction d with
  | nil => simp [dictFind] at h
  | cons kv rest ih =>
    obtain ⟨k2, v2⟩ := kv
    simp only [dictFind] at h
    by_cases hk : k2 = k
    · simp [hk] at h
      subst h
      simp [pySizeD]
      omega
    · simp [hk] at h
      have := ih h
      simp [pySizeD]
      omega

theorem dictFind_two_pySize {d : List (String × PyVal)} {k1 k2 : String} {v1 v2 : PyVal}
    (h1 : dictFind d k1 = some v1) (h2 : dictFind d k2 = some v2) (hne : k1 ≠ k2) :
    2 + pySize v1 + pySize v2 ≤ pySizeD d := by
  induction d with
  | nil => simp [dictFind] at h1
  | cons kv rest ih =>
    obtain ⟨k, v⟩ := kv
    simp only [dictFind] at h1 h2
    by_cases hk1 : k = k1
    · simp [hk1] at h1
      have hk2 : ¬ (k = k2) := by
        intro hc
        exact hne (hk1 ▸ hc ▸ rfl)
      simp [hk2] at h2
      subst h1
      have := dictFind_pySize h2
      simp [pySizeD]
      omega
    · simp [hk1] at h1
      by_cases hk2 : k = k2
      · simp [hk2] at h2
        subst h2
        have := dictFind_pySize h1
        simp [pySizeD]
        omega
      · simp [hk2] at h2
        have := ih h1 h2
        simp [pySizeD]
        omega

/-! ## Character-level models of the Python str operations used by the
program: split, strip, startswith.  A Python str is a sequence of code
points, so these are defined on List Char (the .data of a String). -/

/-- Model of Python `s.split(sep)` for a one-character separator (no
maxsplit): always returns at least one (possibly empty) component, one
more component per separator occurrence. -/
def splitCh (sep : Char) : List Char → List (List Char)
  | [] => [[]]
  | c :: rest =>
    match splitCh sep rest with
    | [] => [[]]
    | h :: t => if c = sep then [] :: h :: t else (c :: h) :: t

/-- Model of Python `s.strip()`: remove leading and trailing
whitespace characters. -/
def pyStrip (l : List Char) : List Char :=
  ((l.dropWhile Char.isWhitespace).reverse.dropWhile Char.isWhitespace).reverse

/-- Model of Python `s.split(sep)` at the String level. -/
def pySplit (sep : Char) (s : String) : List String :=
  (splitCh sep s.data).map String.mk

/-- Model of Python `s.startswith(pre)`. -/
def pyStartsWith (pre s : String) : Bool :=
  pre.data.isPrefixOf s.data

theorem splitCh_ne_nil (sep : Char) (l : List Char) : splitCh sep l ≠ [] := by
  cases l with
  | nil => simp [splitCh]
  | cons c rest =>
    simp only [splitCh]
    cases h : splitCh sep rest with
    | nil => simp
    | cons hh tt =>
      by_cases hc : c = sep <;> simp [hc]

theorem splitCh_no_sep {sep : Char} {l : List Char} (h : sep ∉ l) :
    splitCh sep l = [l] := by
  induction l with
  | nil => simp [splitCh]
  | cons c rest ih =>
    simp only [List.mem_cons, not_or] at h
    obtain ⟨hc, hrest⟩ := h
    simp only [splitCh, ih hrest]
    have : ¬ (c = sep) := fun hcc => hc hcc.symm
    simp [this]

theorem splitCh_append_sep {sep : Char} {a : List Char} (b : List Char) (h : sep ∉ a) :
    splitCh sep (a ++ sep :: b) = a :: splitCh sep b := by
  induction a with
  | nil =>
    simp only [List.nil_append, splitCh]
    cases hsb : splitCh sep b with
    | nil => exact absurd hsb (splitCh_ne_nil sep b)
    | cons hh tt => simp
  | cons c rest ih =>
    simp only [List.mem_cons, not_or] at h
    obtain ⟨hc, hrest⟩ := h
    simp only [List.cons_append, splitCh]
    rw [List.append_eq, ih hrest]
    have : ¬ (c = sep) := fun hcc => hc hcc.symm
    simp [this]

/-! ## Action engine: ActionManager.perform

An Action in the source is a dataclass with fields `type` (in practice
a string, matched with == against literal strings) and `payload`
(arbitrary).  The effect trace below records, in program order, the
external calls `perform` makes: library invocations, log calls, and the
inter-step sleep of macros.  Each log call site is a distinct
constructor carrying the dynamic data of its message.  The top-level
`try/except` of `perform` is modelled by `logActionError`: an
exception raised inside the body of `perform` is converted into that
single log effect (the only such exception source reachable in our own
code is `payload.split("+")` on a payload that is neither list nor
string, and `os.path.exists` applied to a non-string).  Exceptions
raised by a recursive `perform` call on a macro step are caught by
that inner call itself, so they never abort the outer loop. -/

structure ActEnv where
  /-- PYAUTOGUI_AVAILABLE at module load. -/
  pyautoguiAvailable : Bool
  /-- Result of os.path.exists for the script action payload. -/
  scriptExists : String → Bool

inductive Effect where
  /-- logger.debug executando acao (fires for every non-none type). -/
  | logExecDebug (t : PyVal)
  /-- window_manager.toggle_application(payload). -/
  | toggleApp (p : PyVal)
  /-- webbrowser.open(payload). -/
  | openUrl (p : PyVal)
  | logOpenUrl (p : PyVal)
  /-- subprocess.Popen(payload, shell=True). -/
  | runCmd (p : PyVal)
  | logRunCmd (p : PyVal)
  /-- pyautogui.write(payload). -/
  | typeText (p : PyVal)
  | logTypeTextDone
  | warnNoPyautoguiWrite
  /-- pyautogui.hotkey(*keys). -/
  | hotkey (keys : List PyVal)
  | logHotkey (keys : List PyVal)
  | warnNoPyautoguiHotkey
  /-- subprocess.Popen([sys.executable, payload]). -/
  | runScript (path : String)
  | logScriptNotFound (path : String)
  /-- logger.info iniciando macro de n passos. -/
  | logMacroStart (n : Nat)
  /-- time.sleep(0.1) between macro steps. -/
  | sleep100
  /-- logger.error erro no passo (stepNo) da macro. -/
  | logMacroStepError (stepNo : Nat)
  /-- logger.error macro com payload invalido. -/
  | logMacroInvalidPayload
  /-- logger.error of the top-level except block of perform. -/
  | logActionError

/- Model of ActionManager.perform (source lines 610 to 664).  The
first argument is the Action field `type`, the second the Action field
`payload`.  A non-string `type` matches none of the string comparisons
and therefore only produces the debug log.  `performSteps` is the
`for i, a in enumerate(action.payload)` loop of the macro branch; a
step that is a dict containing the key "type" is re-packed as
`Action(a.get("type"), a.get("payload", ""))` and performed
recursively, followed by the 0.1 s sleep. -/
mutual
def perform (env : ActEnv) (t p : PyVal) : List Effect :=
  match t with
  | .str s =>
    if s = "none" then []
    else
      Effect.logExecDebug (.str s) ::
      (if s = "open_program" then [.toggleApp p]
       else if s = "open_url" then [.openUrl p, .logOpenUrl p]
       else if s = "run_cmd" then [.runCmd p, .logRunCmd p]
       else if s = "type_text" then
         if env.pyautoguiAvailable then [.typeText p, .logTypeTextDone]
         else [.warnNoPyautoguiWrite]
       else if s = "hotkey" then
         if env.pyautoguiAvailable then
           match p with
           | .list keys => [.hotkey keys, .logHotkey keys]
           | .str sp =>
             let keys := (splitCh '+' sp.data).map (fun cs => PyVal.str (String.mk cs))
             [.hotkey keys, .logHotkey keys]
           | .dict _ => [.logActionError]
         else [.warnNoPyautoguiHotkey]
       else if s = "script" then
         match p with
         | .str path =>
           if env.scriptExists path then [.runScript path]
           else [.logScriptNotFound path]
         | _ => [.logActionError]
       else if s = "macro" then
         match p with
         | .list l => Effect.logMacroStart l.length :: performSteps env 0 l
         | _ => [.logMacroInvalidPayload]
       else [])
  | _ => [Effect.logExecDebug t]
termination_by pySize t + pySize p
decreasing_by
  simp [pySize]
  omega

def performSteps (env : ActEnv) (i : Nat) : List PyVal → List Effect
  | [] => []
  | a :: rest =>
    (match a with
     | .dict fields =>
       match htv : dictFind fields "type" with
       | some tv =>
         (match hpv : dictFind fields "payload" with
          | some pv => perform env tv pv
          | none => perform env tv (.str "")) ++ [.sleep100]
       | none => [.logMacroStepError (i + 1)]
     | _ => [.logMacroStepError (i + 1)]) ++ performSteps env (i + 1) rest
termination_by l => pySizeL l
decreasing_by
  all_goals simp [pySizeL, pySize]
  all_goals try omega
  all_goals try (have h2 := dictFind_two_pySize htv hpv (by decide : "type" ≠ "payload"); omega)
  all_goals (have h1 := dictFind_pySize htv; omega)
end

/-! ## Window toggle engine: WindowManager.toggle_application

Source lines 531 to 595.  The environment captures what the host OS
reports during one invocation: the availability flags checked at
module load, the window handles collected by iterating processes whose
executable matches the target path (in process-iteration order, before
the title filter and sort), the window titles, the current foreground
window, the minimized state of each window, and whether the executable
path exists on disk.  The window set is recomputed from the
environment on every invocation, exactly as in the source. -/

structure WinEnv where
  psutilAvailable : Bool
  windowsAvailable : Bool
  /-- Raised inside the psutil.process_iter loop (the outer except). -/
  processIterRaises : Bool
  /-- Handles accumulated from get_hwnds_for_pid over matching processes. -/
  procHwnds : List Nat
  /-- win32gui.GetWindowText. -/
  windowTitle : Nat → String
  /-- win32gui.GetForegroundWindow. -/
  foreground : Nat
  /-- win32gui.IsIconic. -/
  iconic : Nat → Bool
  /-- os.path.exists(exe_path) inside _start_new. -/
  pathExists : Bool

inductive WinEffect where
  | warnDepsMissing
  /-- os.startfile(path) or subprocess.Popen([path]) in _start_new. -/
  | startNew
  | logFileNotFound
  | logProcListError
  | logNoInstance
  | logEndCycle
  | logCycling
  | logBringFront
  /-- win32gui.ShowWindow(h, SW_MINIMIZE). -/
  | minimize (h : Nat)
  /-- win32gui.ShowWindow(h, SW_RESTORE). -/
  | restore (h : Nat)
  /-- win32gui.ShowWindow(h, SW_SHOW). -/
  | showWindow (h : Nat)
  /-- win32gui.SetForegroundWindow(h). -/
  | setForeground (h : Nat)

/-- Model of WindowManager._start_new (source lines 588 to 595). -/
def startNewEffects (env : WinEnv) : List WinEffect :=
  if env.pathExists then [.startNew] else [.logFileNotFound]

/-- Model of WindowManager._bring_to_front (source lines 573 to 586):
no-op when the window is already foreground; restore first when
minimized; then show and set foreground (the focus-stealing fallback
of the except branch is not exercised in this model, where the win32
raise calls succeed). -/
def bringToFront (env : WinEnv) (h : Nat) : List WinEffect :=
  if !env.windowsAvailable then []
  else if env.foreground = h then []
  else (if env.iconic h then [.restore h] else []) ++ [.showWindow h, .setForeground h]

/-- The ordered window set of one invocation: the collected handles,
filtered to non-empty titles, sorted ascending (Python list.sort). -/
def windowSet (env : WinEnv) : List Nat :=
  (env.procHwnds.filter (fun h => env.windowTitle h != "")).mergeSort (· ≤ ·)

/-- Model of WindowManager.toggle_application (source lines 531 to
571).  target_hwnds is windowSet; `current_index` uses the first
occurrence of the foreground handle (Python list.index); the
cycle-successor access target_hwnds[current_index + 1] is modelled by
getD (the index is in range whenever it is evaluated). -/
def toggleApplication (env : WinEnv) : List WinEffect :=
  if !env.psutilAvailable || !env.windowsAvailable then
    WinEffect.warnDepsMissing :: startNewEffects env
  else if env.processIterRaises then
    WinEffect.logProcListError :: startNewEffects env
  else
    let ths := windowSet env
    if ths.isEmpty then WinEffect.logNoInstance :: startNewEffects env
    else if env.foreground ∈ ths then
      let i := ths.indexOf env.foreground
      if i = ths.length - 1 then [.logEndCycle, .minimize env.foreground]
      else WinEffect.logCycling :: bringToFront env (ths.getD (i + 1) 0)
    else WinEffect.logBringFront :: bringToFront env (ths.getD 0 0)

/-! ## Line framing of the Wi-Fi reader loop

Source lines 1754 to 1793: read_buffer accumulates the UTF-8-decoded
text of each received chunk; the inner while loop splits off one line
per newline, strips it, and emits it through on_message when it is
non-empty.  The buffer and the lines are sequences of code points,
modelled as List Char. -/

/-- Split a buffer at its first newline: some (before, after), or none
when the buffer holds no newline (the while condition fails). -/
def splitFirstNl : List Char → Option (List Char × List Char)
  | [] => none
  | c :: rest =>
    if c = '\n' then some ([], rest)
    else
      match splitFirstNl rest with
      | none => none
      | some (l, r) => some (c :: l, r)

theorem splitFirstNl_eq_some {buf l r : List Char}
    (h : splitFirstNl buf = some (l, r)) : buf = l ++ '\n' :: r ∧ '\n' ∉ l := by
  induction buf generalizing l with
  | nil => simp [splitFirstNl] at h
  | cons c rest ih =>
    simp only [splitFirstNl] at h
    by_cases hc : c = '\n'
    · simp [hc] at h
      obtain ⟨hl, hr⟩ := h
      subst hl
      subst hr
      simp [hc]
    · simp only [hc, if_false] at h
      cases hrec : splitFirstNl rest with
      | none => simp [hrec] at h
      | some p =>
        obtain ⟨l2, r2⟩ := p
        simp [hrec] at h
        obtain ⟨hl, hr⟩ := h
        subst hr
        obtain ⟨hl2⟩ := ih hrec
        constructor
        · rw [← hl]
          simp [hl2]
        · rw [← hl]
          simp only [List.mem_cons, not_or]
          exact ⟨fun hcc => hc hcc.symm, (ih hrec).2⟩

theorem splitFirstNl_eq_none {buf : List Char}
    (h : splitFirstNl buf = none) : '\n' ∉ buf := by
  induction buf with
  | nil => simp
  | cons c rest ih =>
    simp only [splitFirstNl] at h
    by_cases hc : c = '\n'
    · simp [hc] at h
    · simp only [hc, if_false] at h
      cases hrec : splitFirstNl rest with
      | none =>
        simp only [List.mem_cons, not_or]
        exact ⟨fun hcc => hc hcc.symm, ih hrec⟩
      | some p => simp [hrec] at h

theorem splitFirstNl_of_no_nl {buf : List Char} (h : '\n' ∉ buf) :
    splitFirstNl buf = none := by
  cases hs : splitFirstNl buf with
  | none => rfl
  | some p =>
    obtain ⟨l, r⟩ := p
    obtain ⟨heq, -⟩ := splitFirstNl_eq_some hs
    exact absurd (heq ▸ (by simp : '\n' ∈ l ++ '\n' :: r)) h

theorem splitFirstNl_append {l : List Char} (x : List Char) (h : '\n' ∉ l) :
    splitFirstNl (l ++ '\n' :: x) = some (l, x) := by
  induction l with
  | nil => simp [splitFirstNl]
  | cons c rest ih =>
    simp only [List.mem_cons, not_or] at h
    obtain ⟨hc, hrest⟩ := h
    simp only [List.cons_append, splitFirstNl]
    rw [List.append_eq, ih hrest]
    have : ¬ (c = '\n') := fun hcc => hc hcc.symm
    simp [this]

/-- The inner `while "\n" in self.read_buffer` loop: repeatedly split
off the first line, strip it, emit it when non-empty; return the
emitted lines in order together with the final (newline-free) buffer
remainder. -/
def drain (buf : List Char) : List (List Char) × List Char :=
  match hs : splitFirstNl buf with
  | none => ([], buf)
  | some (line, rest) =>
    let e := pyStrip line
    let p := drain rest
    (if e = [] then p.1 else e :: p.1, p.2)
termination_by buf.length
decreasing_by
  obtain ⟨heq, -⟩ := splitFirstNl_eq_some hs
  subst heq
  simp
  omega

theorem splitFirstNl_eq_none' {buf : List Char}
    (h : splitFirstNl buf = none) : '\n' ∉ buf := by
  induction buf with
  | nil => simp
  | cons c rest ih =>
    simp only [splitFirstNl] at h
    by_cases hc : c = '\n'
    · simp [hc] at h
    · simp only [hc, if_false] at h
      cases hrec : splitFirstNl rest with
      | none =>
        simp only [List.mem_cons, not_or]
        exact ⟨fun hcc => hc hcc.symm, ih hrec⟩
      | some p => simp [hrec] at h

theorem drain_of_none {buf : List Char} (h : splitFirstNl buf = none) :
    drain buf = ([], buf) := by
  unfold drain
  split
  · rfl
  · next line rest hs => rw [h] at hs; exact absurd hs (by simp)

theorem drain_of_some {buf line rest : List Char}
    (h : splitFirstNl buf = some (line, rest)) :
    drain buf = (if pyStrip line = [] then (drain rest).1
                 else pyStrip line :: (drain rest).1, (drain rest).2) := by
  conv_lhs => rw [drain.eq_def]
  split
  · next hs => rw [h] at hs; exact absurd hs (by simp)
  · next l2 r2 hs =>
    rw [h] at hs
    simp only [Option.some.injEq, Prod.mk.injEq] at hs
    obtain ⟨h1, h2⟩ := hs
    subst h1
    subst h2
    rfl

theorem drain_rest_no_nl (buf : List Char) : '\n' ∉ (drain buf).2 := by
  induction buf using drain.induct with
  | case1 x hx =>
    rw [drain_of_none hx]
    exact splitFirstNl_eq_none' hx
  | case2 x line rest hx ih =>
    rw [drain_of_some hx]
    exact ih

/-- Draining a concatenation equals draining the first part and then
draining its remainder extended by the second part: the streaming
decomposition property of the inner while loop. -/
theorem drain_append (a b : List Char) :
    drain (a ++ b) = ((drain a).1 ++ (drain ((drain a).2 ++ b)).1,
                      (drain ((drain a).2 ++ b)).2) := by
  induction a using drain.induct generalizing b with
  | case1 x hx =>
    rw [drain_of_none hx]
    simp
  | case2 x line rest hx ih =>
    obtain ⟨heq, hnl⟩ := splitFirstNl_eq_some hx
    subst heq
    have hsplit : splitFirstNl ((line ++ '\n' :: rest) ++ b) = some (line, rest ++ b) := by
      rw [List.append_assoc, List.cons_append]
      exact splitFirstNl_append (rest ++ b) hnl
    rw [drain_of_some hsplit, drain_of_some hx, ih b]
    by_cases he : pyStrip line = [] <;> simp [he]

/-- One pass of the outer reader loop on one received chunk, at the
level of decoded text: append the chunk text to the buffer and run the
inner line-splitting loop. -/
def readerStep (acc : List (List Char) × List Char) (ch : List Char) :
    List (List Char) × List Char :=
  let r := drain (acc.2 ++ ch)
  (acc.1 ++ r.1, r.2)

/-- The reader loop over a whole connection, at the level of decoded
text: the buffer starts empty (read_buffer = "" in __init__) and each
chunk is processed in order; returns all emitted lines and the final
buffer. -/
def runReaderText (chunks : List (List Char)) : List (List Char) × List Char :=
  chunks.foldl readerStep ([], [])

theorem runReader_from (chunks : List (List Char)) :
    ∀ out buf, '\n' ∉ buf →
      chunks.foldl readerStep (out, buf) =
        (out ++ (drain (buf ++ chunks.flatten)).1, (drain (buf ++ chunks.flatten)).2) := by
  induction chunks with
  | nil =>
    intro out buf hb
    rw [List.foldl_nil, List.flatten_nil, List.append_nil,
      drain_of_none (splitFirstNl_of_no_nl hb)]
    simp
  | cons c cs ih =>
    intro out buf hb
    rw [List.foldl_cons]
    show cs.foldl readerStep (out ++ (drain (buf ++ c)).1, (drain (buf ++ c)).2) = _
    rw [ih _ _ (drain_rest_no_nl (buf ++ c))]
    rw [List.flatten_cons, ← List.append_assoc, drain_append (buf ++ c) cs.flatten]
    simp [List.append_assoc]

/-! ## UTF-8 decoding with errors="ignore"

Source line 1771 decodes every received chunk separately with
data.decode("utf-8", errors="ignore").  The model below decodes a byte
list to the code points of the valid UTF-8 sequences it contains and
silently skips invalid bytes: stray continuation bytes, invalid lead
bytes, lead bytes whose continuation bytes are missing or malformed,
and sequences truncated by the end of the chunk.  (The rejection of
overlong encodings and surrogate code points, which the Python codec
also performs, is not modelled; no byte stream considered in the
theorems below contains such sequences.) -/

def utf8Cont (b : Nat) : Bool := decide (0x80 ≤ b) && decide (b < 0xC0)

def utf8DecodeIgnore : List Nat → List Char
  | [] => []
  | b :: rest =>
    if b < 0x80 then Char.ofNat b :: utf8DecodeIgnore rest
    else if b < 0xC2 then utf8DecodeIgnore rest
    else if b < 0xE0 then
      match rest with
      | [] => []
      | b2 :: rest2 =>
        if utf8Cont b2 then
          Char.ofNat ((b - 0xC0) * 0x40 + (b2 - 0x80)) :: utf8DecodeIgnore rest2
        else utf8DecodeIgnore (b2 :: rest2)
    else if b < 0xF0 then
      match rest with
      | [] => []
      | [_] => []
      | b2 :: b3 :: rest3 =>
        if utf8Cont b2 && utf8Cont b3 then
          Char.ofNat ((b - 0xE0) * 0x1000 + (b2 - 0x80) * 0x40 + (b3 - 0x80)) ::
            utf8DecodeIgnore rest3
        else if utf8Cont b2 then utf8DecodeIgnore (b3 :: rest3)
        else utf8DecodeIgnore (b2 :: b3 :: rest3)
    else if b < 0xF5 then
      match rest with
      | [] => []
      | [_] => []
      | [_, _] => []
      | b2 :: b3 :: b4 :: rest4 =>
        if utf8Cont b2 && utf8Cont b3 && utf8Cont b4 then
          Char.ofNat ((b - 0xF0) * 0x40000 + (b2 - 0x80) * 0x1000 +
            (b3 - 0x80) * 0x40 + (b4 - 0x80)) :: utf8DecodeIgnore rest4
        else if utf8Cont b2 && utf8Cont b3 then utf8DecodeIgnore (b4 :: rest4)
        else if utf8Cont b2 then utf8DecodeIgnore (b3 :: b4 :: rest4)
        else utf8DecodeIgnore (b2 :: b3 :: b4 :: rest4)
    else utf8DecodeIgnore rest

/-- One pass of the Wi-Fi reader loop on one received byte chunk
(source lines 1766 to 1778): decode the chunk, append to read_buffer,
run the line-splitting loop. -/
def wifiReaderStep (acc : List (List Char) × List Char) (data : List Nat) :
    List (List Char) × List Char :=
  readerStep acc (utf8DecodeIgnore data)

/-- The Wi-Fi reader loop over a whole connection at the byte level:
each element of chunks is the byte string returned by one recv call. -/
def runReaderBytes (chunks : List (List Nat)) : List (List Char) × List Char :=
  chunks.foldl wifiReaderStep ([], [])

/-- Model of one iteration of the serial reader loop (source lines
1646 to 1656): readline returns one raw line, which is decoded with
errors="ignore", stripped, and emitted if non-empty. -/
def serialProcessRead (raw : List Nat) : Option (List Char) :=
  let line := pyStrip (utf8DecodeIgnore raw)
  if line = [] then none else some line

/-- The serial reader loop over the sequence of readline results. -/
def runSerialReader (reads : List (List Nat)) : List (List Char) :=
  reads.filterMap serialProcessRead

/-! ## Serial transport: SerialManager

Source lines 1571 to 1660.  The state models the fields of one
SerialManager instance: heldPort is the port of the open serial object
(self._serial is not None and self._serial.is_open); statusLog records
the connected argument of every on_status_change invocation in order;
sent records every byte string written to the serial port.  The
environment models the host: which ports other processes hold open
(opening such a port raises SerialException, as does re-opening a port
this instance already holds), and whether writes fail mid-session. -/

structure SerialEnv where
  /-- Ports currently held open by some other process. -/
  othersHold : String → Bool
  /-- Whether serial.write raises (mid-session write failure). -/
  writeFails : Bool

structure SMState where
  heldPort : Option String
  running : Bool
  isConnected : Bool
  statusLog : List Bool
  sent : List String

def SMState.init : SMState :=
  { heldPort := none, running := false, isConnected := false, statusLog := [], sent := [] }

/-- Model of SerialManager.is_port_available (source lines 1602 to
1608): briefly open then close the port; opening fails when the port
is already held, by another process or by this very instance. -/
def serialIsPortAvailable (env : SerialEnv) (s : SMState) (port : String) : Bool :=
  !env.othersHold port && !(s.heldPort == some port)

/-- Model of SerialManager.send_command (source lines 1592 to 1600):
append a newline and write; on a write error, log and return False
without touching the connection state. -/
def serialSendCommand (env : SerialEnv) (s : SMState) (command : String) :
    SMState × Bool :=
  if s.isConnected ∧ s.heldPort ≠ none then
    if env.writeFails then (s, false)
    else ({ s with sent := s.sent ++ [command ++ "\n"] }, true)
  else (s, false)

/-- Model of SerialManager.disconnect (source lines 1613 to 1624):
clear the flags, best-effort DISCONNECT write, close the port, and
invoke on_status_change(False, ...) unconditionally. -/
def serialDisconnect (env : SerialEnv) (s : SMState) : SMState :=
  { heldPort := none, running := false, isConnected := false,
    sent := if s.heldPort ≠ none ∧ ¬env.writeFails
            then s.sent ++ ["DISCONNECT\n"] else s.sent,
    statusLog := s.statusLog ++ [false] }

/-- Model of the finally block of SerialManager._reader_loop (source
lines 1657 to 1660): clear the flags and invoke
on_status_change(False, ...), unconditionally, when the reader thread
unwinds for any reason. -/
def serialReaderFinally (s : SMState) : SMState :=
  { s with
    running := false,
    isConnected := false,
    statusLog := s.statusLog ++ [false] }

/-- Model of SerialManager.connect (source lines 1626 to 1644): probe
availability first (returning False when the probe fails, without
touching the existing connection); then disconnect a prior open port;
then open the new port, start the reader, send the CONNECTED
handshake, notify on_status_change(True, ...) and return True. -/
def serialConnect (env : SerialEnv) (s : SMState) (port : String) :
    SMState × Bool :=
  if !serialIsPortAvailable env s port then (s, false)
  else
    let s1 := if s.heldPort ≠ none then serialDisconnect env s else s
    let s2 := { s1 with heldPort := some port, running := true, isConnected := true }
    let s3 := (serialSendCommand env s2 "CONNECTED").1
    ({ s3 with statusLog := s3.statusLog ++ [true] }, true)

/-! ## Network transport: WifiManager

Source lines 1665 to 1793.  socketOpen models self._socket being a
live socket object; statusLog and sent are as for the serial manager. -/

structure WifiEnv where
  /-- Whether the bounded-timeout TCP connect succeeds. -/
  connectSucceeds : Bool
  /-- Whether socket.sendall raises (mid-session write failure). -/
  sendFails : Bool

structure WMState where
  socketOpen : Bool
  running : Bool
  isConnected : Bool
  statusLog : List Bool
  sent : List String

def WMState.init : WMState :=
  { socketOpen := false, running := false, isConnected := false, statusLog := [], sent := [] }

/-- Model of WifiManager.disconnect (source lines 1730 to 1752): clear
the flags, best-effort DISCONNECT send, shutdown and close the socket,
clear the reference, and invoke on_status_change(False, ...)
unconditionally. -/
def wifiDisconnect (env : WifiEnv) (w : WMState) : WMState :=
  { socketOpen := false, running := false, isConnected := false,
    sent := if w.socketOpen ∧ ¬env.sendFails
            then w.sent ++ ["DISCONNECT\n"] else w.sent,
    statusLog := w.statusLog ++ [false] }

/-- Model of WifiManager.send_command (source lines 1686 to 1697):
append a newline and sendall; on a send error, log, call disconnect
for cleanup, and return False. -/
def wifiSendCommand (env : WifiEnv) (w : WMState) (command : String) :
    WMState × Bool :=
  if w.isConnected ∧ w.socketOpen then
    if env.sendFails then (wifiDisconnect env w, false)
    else ({ w with sent := w.sent ++ [command ++ "\n"] }, true)
  else (w, false)

/-- Model of the finally block of WifiManager._reader_loop (source
lines 1791 to 1793): the reader thread calls disconnect when it
unwinds for any reason. -/
def wifiReaderFinally (env : WifiEnv) (w : WMState) : WMState :=
  wifiDisconnect env w

/-- Model of WifiManager.connect (source lines 1699 to 1728): always
disconnect first; then attempt the bounded-timeout TCP connect; on
success start the reader, send the CONNECTED handshake, notify
on_status_change(True, ...) and return True; on failure clear the
connected flag, notify on_status_change(False, ...) and return False. -/
def wifiConnect (env : WifiEnv) (w : WMState) : WMState × Bool :=
  let w1 := wifiDisconnect env w
  if env.connectSucceeds then
    let w2 := { w1 with socketOpen := true, running := true, isConnected := true }
    let w3 := (wifiSendCommand env w2 "CONNECTED").1
    ({ w3 with statusLog := w3.statusLog ++ [true] }, true)
  else
    ({ w1 with isConnected := false, statusLog := w1.statusLog ++ [false] }, false)

/-! ## Application layer: Esp32DeckApp

The application owns one SerialManager and one WifiManager instance.
AppState pairs their states. -/

structure AppState where
  sm : SMState
  wm : WMState

def AppState.init : AppState :=
  { sm := SMState.init, wm := WMState.init }

/-- The two transport kinds selectable in the UI (the UI label USB is
mapped back to the internal Serial logic in _connect_any). -/
inductive ConnKind where
  | serial
  | wifi

/-- Model of Esp32DeckApp._connect_any (source lines 3050 to 3065):
disconnect the non-selected manager first when it is connected, then
attempt to connect the selected one.  The port (and baud) or host and
port come from the UI; only the serial port identity matters here. -/
def connectAny (senv : SerialEnv) (wenv : WifiEnv) (app : AppState)
    (kind : ConnKind) (port : String) : AppState :=
  match kind with
  | .serial =>
    let app1 := if app.wm.isConnected
                then { app with wm := wifiDisconnect wenv app.wm } else app
    { app1 with sm := (serialConnect senv app1.sm port).1 }
  | .wifi =>
    let app1 := if app.sm.isConnected
                then { app with sm := serialDisconnect senv app.sm } else app
    { app1 with wm := (wifiConnect wenv app1.wm).1 }

/-- Model of Esp32DeckApp._disconnect_any (source lines 3067 to 3069):
disconnect both managers. -/
def disconnectAny (senv : SerialEnv) (wenv : WifiEnv) (app : AppState) : AppState :=
  { sm := serialDisconnect senv app.sm, wm := wifiDisconnect wenv app.wm }

/-- Model of Python int(s) restricted to the shapes that occur for
button keys: optional surrounding whitespace, an optional sign, then
one or more decimal digits; anything else raises ValueError, modelled
as none.  (Underscore digit grouping is not modelled.) -/
def pyIntOpt (s : String) : Option Int :=
  let t := pyStrip s.data
  let (neg, digits) :=
    match t with
    | '-' :: rest => (true, rest)
    | '+' :: rest => (false, rest)
    | _ => (false, t)
  if digits = [] then none
  else if digits.all Char.isDigit then
    let n := digits.foldl (fun acc c => acc * 10 + (c.toNat - '0'.toNat)) 0
    some (if neg then -(n : Int) else (n : Int))
  else none

/-- Model of Esp32DeckApp._send_led_color_command (source lines 2727
to 2754): when neither manager is connected, warn and do nothing;
otherwise compute the zero-based LED index int(button_key) - 1 (a
ValueError is caught by the surrounding except and only logged), strip
the leading run of # characters from the color (lstrip), build
LED:(index):(hex) and send it on the serial manager when it is
connected, else on the Wi-Fi manager. -/
def sendLedColorCommand (senv : SerialEnv) (wenv : WifiEnv) (app : AppState)
    (buttonKey colorHex : String) : AppState :=
  let isSerial := app.sm.isConnected
  let isWifi := app.wm.isConnected
  if ¬isSerial ∧ ¬isWifi then app
  else
    match pyIntOpt buttonKey with
    | none => app
    | some n =>
      let hexPayload := String.mk (colorHex.data.dropWhile (fun c => c = '#'))
      let command := "LED:" ++ toString (n - 1) ++ ":" ++ hexPayload
      if isSerial then { app with sm := (serialSendCommand senv app.sm command).1 }
      else { app with wm := (wifiSendCommand wenv app.wm command).1 }

/-! ## Device protocol router: inbound BTN lines

Source lines 3479 to 3501.  The router events record, in order, the
externally visible consequences of one inbound line: the info log of
_on_serial_message / _on_wifi_message, the ActionManager.perform call,
and the error log of the except IndexError branch.  A None result of
the whole function models an exception escaping _process_button_message
(only possible when the configured button value is malformed, since
only IndexError is caught). -/

inductive RouterEvent where
  /-- logger.info of the raw inbound line. -/
  | logRecv (text : String)
  /-- action_manager.perform(Action(type, payload)). -/
  | callPerform (t : PyVal) (p : PyVal)
  /-- logger.error mensagem BTN invalida (except IndexError branch). -/
  | logInvalidBtn (text : String)

/-- Model of Python getattr-style v.get(k, dflt): defined only on
dicts; on any other value the attribute access raises, modelled none. -/
def pyGetAttr (v : PyVal) (k : String) (dflt : PyVal) : Option PyVal :=
  match v with
  | .dict d =>
    some (match dictFind d k with
          | some x => x
          | none => dflt)
  | _ => none

/-- Model of Esp32DeckApp._process_button_message (source lines 3487
to 3501).  buttons is self.config.data["buttons"], a dict from button
key to button configuration.  key = text.split(":")[1]; a missing
index raises IndexError, caught and logged; a falsy lookup result is
skipped; otherwise the action type and payload are extracted with
btn_conf.get("action", {}).get("type", "none") and .get("payload", "")
and handed to perform. -/
def processWithKey (buttons : List (String × PyVal)) (key : String) :
    Option (List RouterEvent) :=
  match dictFind buttons key with
  | some conf =>
    if pyTruthy conf then
      match pyGetAttr conf "action" (.dict []) with
      | none => none
      | some av =>
        match pyGetAttr av "type" (.str "none"), pyGetAttr av "payload" (.str "") with
        | some t, some p => some [.callPerform t p]
        | _, _ => none
    else some []
  | none => some []

def processButtonMessage (buttons : List (String × PyVal)) (text : String) :
    Option (List RouterEvent) :=
  if pyStartsWith "BTN:" text then
    match (pySplit ':' text).get? 1 with
    | none => some [.logInvalidBtn text]
    | some key => processWithKey buttons key
  else some []

/-- Model of Esp32DeckApp._on_serial_message / _on_wifi_message
(source lines 3479 to 3485): log the inbound line, then process it. -/
def onTransportMessage (buttons : List (String × PyVal)) (text : String) :
    Option (List RouterEvent) :=
  (processButtonMessage buttons text).map (RouterEvent.logRecv text :: ·)

/-! ## Reachable application states

The operations below are the only places in the program that mutate
the connection state of either manager: the connect button
(_connect_any), the disconnect button and window close
(_disconnect_any, on_closing), the reader threads unwinding, and
send_command calls (LED commands, handshakes).  Inputs from the host
environment and the UI are parameters of each operation. -/

inductive AppOp where
  | connect (senv : SerialEnv) (wenv : WifiEnv) (kind : ConnKind) (port : String)
  | disconnectAll (senv : SerialEnv) (wenv : WifiEnv)
  | serialReaderExit
  | wifiReaderExit (wenv : WifiEnv)
  | serialSend (senv : SerialEnv) (command : String)
  | wifiSend (wenv : WifiEnv) (command : String)
  | ledColor (senv : SerialEnv) (wenv : WifiEnv) (buttonKey colorHex : String)

def appStep (app : AppState) : AppOp → AppState
  | .connect senv wenv kind port => connectAny senv wenv app kind port
  | .disconnectAll senv wenv => disconnectAny senv wenv app
  | .serialReaderExit => { app with sm := serialReaderFinally app.sm }
  | .wifiReaderExit wenv => { app with wm := wifiReaderFinally wenv app.wm }
  | .serialSend senv command => { app with sm := (serialSendCommand senv app.sm command).1 }
  | .wifiSend wenv command => { app with wm := (wifiSendCommand wenv app.wm command).1 }
  | .ledColor senv wenv buttonKey colorHex => sendLedColorCommand senv wenv app buttonKey colorHex

inductive Reachable : AppState → Prop where
  | init : Reachable AppState.init
  | step {app : AppState} (op : AppOp) : Reachable app → Reachable (appStep app op)

/-! ## Disconnection scenarios for one connection session

A connected transport stops in one of these ways: the reader loop
breaks on a read failure (the finally block then runs), the control
thread calls disconnect (the reader loop then observes running =
false, exits, and its finally block runs), or both race (the two
callback sites run in either order).  Each scenario is the sequence of
callback-invoking steps the source executes in that situation. -/

inductive DiscCause where
  | readFailure
  | userDisconnect
  | raceUserFirst
  | raceReaderFirst

def runSerialDisconnection (env : SerialEnv) (cause : DiscCause) (s : SMState) : SMState :=
  match cause with
  | .readFailure => serialReaderFinally s
  | .userDisconnect => serialReaderFinally (serialDisconnect env s)
  | .raceUserFirst => serialReaderFinally (serialDisconnect env s)
  | .raceReaderFirst => serialDisconnect env (serialReaderFinally s)

def runWifiDisconnection (env : WifiEnv) (cause : DiscCause) (w : WMState) : WMState :=
  match cause with
  | .readFailure => wifiReaderFinally env w
  | .userDisconnect => wifiReaderFinally env (wifiDisconnect env w)
  | .raceUserFirst => wifiReaderFinally env (wifiDisconnect env w)
  | .raceReaderFirst => wifiDisconnect env (wifiReaderFinally env w)

/-- Number of on_status_change invocations with connected = False. -/
def statusFalseCount (l : List Bool) : Nat := (l.filter (fun b => b = false)).length

/-- A benign host environment for the serial manager: no port held by
another process, writes succeed. -/
def serialEnv0 : SerialEnv := { othersHold := fun _ => false, writeFails := false }

/-- A serial manager connected to COM3 (the state reached by
serialConnect serialEnv0 SMState.init "COM3"). -/
def serialConnected0 : SMState :=
  { heldPort := some "COM3", running := true, isConnected := true,
    statusLog := [true], sent := ["CONNECTED\n"] }

def wifiEnv0 : WifiEnv := { connectSucceeds := true, sendFails := false }

/-- A connected Wi-Fi manager (the state reached by
wifiConnect wifiEnv0 WMState.init). -/
def wifiConnected0 : WMState :=
  { socketOpen := true, running := true, isConnected := true,
    statusLog := [false, true], sent := ["CONNECTED\n"] }

theorem serialConnected0_reached :
    serialConnect serialEnv0 SMState.init "COM3" = (serialConnected0, true) := by
  rfl

theorem wifiConnected0_reached :
    wifiConnect wifiEnv0 WMState.init = (wifiConnected0, true) := by
  rfl

/-- Claim C1 counterexample: an explicit user Disconnect() of a
connected serial transport invokes on_status_change(False, ...) twice,
not exactly once — once from SerialManager.disconnect itself and once
from the finally block of the reader thread it shuts down. -/
theorem disconnect_status_fires_twice_cex :
    (runSerialDisconnection serialEnv0 DiscCause.userDisconnect serialConnected0).statusLog
      = [true, false, false] ∧
    statusFalseCount
      (runSerialDisconnection serialEnv0 DiscCause.userDisconnect serialConnected0).statusLog
      ≠ 1 := by
  constructor
  · rfl
  · decide

/-- Claim C1 (amended): a disconnection session invokes
on_status_change(False, ...) at least once and at most twice: exactly
once when it is caused solely by a read failure in the reader loop,
and exactly twice whenever an explicit Disconnect() call is involved
(alone or racing the reader unwind), for both the serial and the
Wi-Fi implementation. -/
theorem disconnect_status_count (senv : SerialEnv) (wenv : WifiEnv)
    (cause : DiscCause) (s : SMState) (w : WMState) :
    statusFalseCount (runSerialDisconnection senv cause s).statusLog =
      statusFalseCount s.statusLog +
        (match cause with | .readFailure => 1 | _ => 2) ∧
    statusFalseCount (runWifiDisconnection wenv cause w).statusLog =
      statusFalseCount w.statusLog +
        (match cause with | .readFailure => 1 | _ => 2) := by
  cases cause <;>
    simp [runSerialDisconnection, runWifiDisconnection, serialReaderFinally,
      serialDisconnect, wifiReaderFinally, wifiDisconnect, statusFalseCount,
      List.filter_append]

/-- A serial environment in which serial writes fail mid-session. -/
def serialEnvWriteFail : SerialEnv := { othersHold := fun _ => false, writeFails := true }

/-- Claim C8 counterexample: a mid-session write failure on the
connected serial transport is only logged: send_command returns False
but the state remains Connected and no on_status_change(False, ...)
notification is issued. -/
theorem serial_send_failure_keeps_connected_cex :
    serialSendCommand serialEnvWriteFail serialConnected0 "LED:0:FF0000"
      = (serialConnected0, false) ∧
    (serialSendCommand serialEnvWriteFail serialConnected0 "LED:0:FF0000").1.isConnected
      = true ∧
    (serialSendCommand serialEnvWriteFail serialConnected0 "LED:0:FF0000").1.statusLog
      = [true] := by
  exact ⟨rfl, rfl, rfl⟩

/-- Claim C8 (amended): a mid-session write failure is non-fatal and
returns False on both implementations; the network implementation
additionally forces its state to Disconnected and notifies the status
callback with connected = false, while the serial implementation only
logs the error and leaves its connection state untouched. -/
theorem send_failure_behaviour (wenv : WifiEnv) (senv : SerialEnv)
    (w : WMState) (s : SMState) (command : String)
    (hwf : wenv.sendFails = true) (hwc : w.isConnected = true)
    (hws : w.socketOpen = true) (hsf : senv.writeFails = true) :
    (wifiSendCommand wenv w command).2 = false ∧
    (wifiSendCommand wenv w command).1.isConnected = false ∧
    (wifiSendCommand wenv w command).1.statusLog = w.statusLog ++ [false] ∧
    serialSendCommand senv s command = (s, false) := by
  refine ⟨?_, ?_, ?_, ?_⟩ <;>
    simp [wifiSendCommand, serialSendCommand, wifiDisconnect, hwf, hwc, hws, hsf]

theorem send_failure_behaviour_witness :
    (wifiSendCommand { connectSucceeds := true, sendFails := true } wifiConnected0 "X").2 = false ∧
    (wifiSendCommand { connectSucceeds := true, sendFails := true } wifiConnected0 "X").1.isConnected = false ∧
    (wifiSendCommand { connectSucceeds := true, sendFails := true } wifiConnected0 "X").1.statusLog
      = wifiConnected0.statusLog ++ [false] ∧
    serialSendCommand serialEnvWriteFail serialConnected0 "X" = (serialConnected0, false) :=
  send_failure_behaviour { connectSucceeds := true, sendFails := true } serialEnvWriteFail
    wifiConnected0 serialConnected0 "X" rfl rfl rfl rfl

/-- Claim C6 counterexample: a serial Connect to the very port this
instance already holds does not transparently disconnect first and
reconnect; the feasibility probe runs before the disconnect, finds the
port held (by this same instance), and Connect returns False with the
old connection left in place untouched. -/
theorem serial_reconnect_same_port_fails_cex :
    serialConnect serialEnv0 serialConnected0 "COM3" = (serialConnected0, false) ∧
    (serialConnect serialEnv0 serialConnected0 "COM3").1.isConnected = true ∧
    (serialConnect serialEnv0 serialConnected0 "COM3").1.statusLog = [true] := by
  exact ⟨rfl, rfl, rfl⟩

/-- Claim C6 (amended): the network Connect always disconnects the
prior connection first (its status log grows by the disconnect
notification before the outcome notification), and the serial Connect
disconnects a prior connection first only when the feasibility probe
for the new target passes — in particular for a different port that no
other process holds; a Connect to the same port the instance already
holds fails the probe and returns False without disconnecting. -/
theorem connect_disconnects_first (wenv : WifiEnv) (senv : SerialEnv)
    (w : WMState) (s : SMState) (port : String)
    (hfree : senv.othersHold port = false)
    (hother : s.heldPort ≠ some port)
    (hconn : s.heldPort ≠ none)
    (hwsend : wenv.sendFails = false) :
    (wifiConnect wenv w).1.statusLog =
      w.statusLog ++ [false] ++ (if wenv.connectSucceeds then [true] else [false]) ∧
    (wifiConnect wenv w).2 = wenv.connectSucceeds ∧
    (serialConnect senv s port).2 = true ∧
    (serialConnect senv s port).1.heldPort = some port ∧
    (serialConnect senv s port).1.statusLog = s.statusLog ++ [false] ++ [true] ∧
    (∀ p2, s.heldPort = some p2 → serialConnect senv s p2 = (s, false)) := by
  refine ⟨?_, ?_, ?_, ?_, ?_, ?_⟩
  · by_cases hc : wenv.connectSucceeds <;>
      simp [wifiConnect, wifiDisconnect, wifiSendCommand, hc, hwsend]
  · by_cases hc : wenv.connectSucceeds <;> simp [wifiConnect, hc]
  · simp [serialConnect, serialIsPortAvailable, hfree, hother]
  · by_cases hwr : senv.writeFails <;>
      simp [serialConnect, serialIsPortAvailable, hfree, hother, serialDisconnect,
        serialSendCommand, hconn, hwr]
  · by_cases hwr : senv.writeFails <;>
      simp [serialConnect, serialIsPortAvailable, hfree, hother, serialDisconnect,
        serialSendCommand, hconn, hwr]
  · intro p2 hp2
    simp [serialConnect, serialIsPortAvailable, hp2]

theorem connect_disconnects_first_witness :
    (wifiConnect wifiEnv0 wifiConnected0).1.statusLog =
      wifiConnected0.statusLog ++ [false] ++
        (if wifiEnv0.connectSucceeds then [true] else [false]) ∧
    (wifiConnect wifiEnv0 wifiConnected0).2 = wifiEnv0.connectSucceeds ∧
    (serialConnect serialEnv0 serialConnected0 "COM4").2 = true ∧
    (serialConnect serialEnv0 serialConnected0 "COM4").1.heldPort = some "COM4" ∧
    (serialConnect serialEnv0 serialConnected0 "COM4").1.statusLog =
      serialConnected0.statusLog ++ [false] ++ [true] ∧
    (∀ p2, serialConnected0.heldPort = some p2 →
      serialConnect serialEnv0 serialConnected0 p2 = (serialConnected0, false)) :=
  connect_disconnects_first wifiEnv0 serialEnv0 wifiConnected0 serialConnected0 "COM4"
    rfl (by decide) (by decide) rfl

/-! ## Nested macro behaviour of the action engine -/

/-- An action environment with input simulation available and no
script file present. -/
def actEnv0 : ActEnv := { pyautoguiAvailable := true, scriptExists := fun _ => false }

/-- A macro step whose kind is open_url. -/
def innerUrlStep : PyVal :=
  .dict [("type", .str "open_url"), ("payload", .str "https://example.com")]

/-- A malformed macro element whose kind is itself macro, wrapping the
open_url step. -/
def nestedStepElem : PyVal :=
  .dict [("type", .str "macro"), ("payload", .list [innerUrlStep])]

/-- Claim C3 counterexample: performing a macro that contains a
nested-macro element does not treat that element as kind none — the
nested macro is recursively performed and its open_url sub-step
executes (the webbrowser call appears in the trace), so the trace
differs from the trace of a macro whose element is of kind none. -/
theorem nested_macro_not_treated_as_none_cex :
    perform actEnv0 (.str "macro") (.list [nestedStepElem]) =
      [.logExecDebug (.str "macro"), .logMacroStart 1,
       .logExecDebug (.str "macro"), .logMacroStart 1,
       .logExecDebug (.str "open_url"), .openUrl (.str "https://example.com"),
       .logOpenUrl (.str "https://example.com"), .sleep100, .sleep100] ∧
    Effect.openUrl (.str "https://example.com")
      ∈ perform actEnv0 (.str "macro") (.list [nestedStepElem]) ∧
    perform actEnv0 (.str "macro") (.list [nestedStepElem]) ≠
      perform actEnv0 (.str "macro")
        (.list [PyVal.dict [("type", PyVal.str "none")]]) := by
  refine ⟨?_, ?_, ?_⟩ <;>
    simp [perform, performSteps, dictFind, nestedStepElem, innerUrlStep]

/-- Claim C3 (amended): the engine tolerates a macro element whose
kind is itself macro without crashing, but does not treat it as kind
none: the nested macro is performed recursively, executing all of its
own sub-steps in order (only the ordinary execution logs are emitted,
no malformed-step log). -/
theorem nested_macro_recursive_execution (env : ActEnv) (steps : List PyVal) :
    perform env (.str "macro")
        (.list [PyVal.dict [("type", PyVal.str "macro"), ("payload", PyVal.list steps)]]) =
      [.logExecDebug (.str "macro"), .logMacroStart 1, .logExecDebug (.str "macro"),
       .logMacroStart steps.length] ++ performSteps env 0 steps ++ [.sleep100] := by
  simp [perform, performSteps, dictFind]

/-! ## Chunk dependence of the byte-level line framing -/

/-- Claim C5 counterexample: the two-byte UTF-8 encoding of the
character e-acute followed by a newline, delivered either as one chunk
or split after its first byte.  Because every chunk is decoded
separately with errors="ignore", the split delivery drops both bytes
of the character and the reader emits no line, while the single-chunk
delivery emits the one-character line — the emitted line sequences
differ for the same byte stream. -/
theorem framing_chunk_dependent_cex :
    ([[0xC3], [0xA9, 0x0A]] : List (List Nat)).flatten = [0xC3, 0xA9, 0x0A] ∧
    (runReaderBytes [[0xC3, 0xA9, 0x0A]]).1 = [['é']] ∧
    (runReaderBytes [[0xC3], [0xA9, 0x0A]]).1 = [] ∧
    (runReaderBytes [[0xC3, 0xA9, 0x0A]]).1 ≠ (runReaderBytes [[0xC3], [0xA9, 0x0A]]).1 := by
  have h1 : (runReaderBytes [[0xC3, 0xA9, 0x0A]]).1 = [['é']] := by
    simp only [runReaderBytes, wifiReaderStep, readerStep, List.foldl_cons, List.foldl_nil]
    rw [show utf8DecodeIgnore [0xC3, 0xA9, 0x0A] = ['é', '\n'] from by decide]
    rw [show ([] : List Char) ++ ['é', '\n'] = ['é', '\n'] from rfl]
    rw [@drain_of_some ['é', '\n'] ['é'] [] (by decide)]
    rw [@drain_of_none [] (by decide)]
    decide
  have h2 : (runReaderBytes [[0xC3], [0xA9, 0x0A]]).1 = [] := by
    simp only [runReaderBytes, wifiReaderStep, readerStep, List.foldl_cons, List.foldl_nil]
    rw [show utf8DecodeIgnore [0xC3] = [] from by decide]
    rw [show utf8DecodeIgnore [0xA9, 0x0A] = ['\n'] from by decide]
    rw [show ([] : List Char) ++ [] = [] from rfl]
    rw [@drain_of_none [] (by decide)]
    rw [show (([] : List (List Char)) ++ [], ([] : List Char)).2 ++ ['\n'] = ['\n'] from rfl]
    rw [@drain_of_some ['\n'] [] [] (by decide)]
    rw [@drain_of_none [] (by decide)]
    decide
  exact ⟨rfl, h1, h2, by rw [h1, h2]; decide⟩

/-- Claim C5 (amended): after UTF-8 decoding, the line framing of the
Wi-Fi reader loop is chunk-size-independent — for every decoded text
stream and every way of splitting it into successive text chunks, the
emitted sequence of stripped non-empty lines (and the final buffer
remainder) equals that of the whole stream delivered as one chunk.
Chunk independence at the byte level holds only when no chunk boundary
splits a multi-byte UTF-8 character. -/
theorem framing_text_chunk_independent (chunks : List (List Char)) :
    runReaderText chunks = runReaderText [chunks.flatten] := by
  unfold runReaderText
  rw [runReader_from chunks [] [] (by simp), runReader_from [chunks.flatten] [] [] (by simp)]
  simp

/-! ## Properties of the BTN line dispatch -/

theorem string_mk_data (s : String) : String.mk s.data = s := by
  cases s
  rfl

theorem splitCh_mem_no_sep {sep : Char} {x : List Char} :
    ∀ l ∈ splitCh sep x, sep ∉ l := by
  induction x with
  | nil =>
    intro l hl
    simp [splitCh] at hl
    simp [hl]
  | cons c rest ih =>
    intro l hl
    simp only [splitCh] at hl
    cases hs : splitCh sep rest with
    | nil => exact absurd hs (splitCh_ne_nil sep rest)
    | cons h t =>
      rw [hs] at hl
      by_cases hc : c = sep
      · simp only [hc, if_true, List.mem_cons] at hl
        rcases hl with hl | hl | hl
        · simp [hl]
        · subst hl
          exact ih l (hs ▸ List.mem_cons_self l t)
        · exact ih l (hs ▸ List.mem_cons_of_mem h hl)
      · simp only [hc, if_false, List.mem_cons] at hl
        rcases hl with hl | hl
        · subst hl
          have hh : sep ∉ h := ih h (hs ▸ List.mem_cons_self h t)
          simp only [List.mem_cons, not_or]
          exact ⟨fun hcc => hc hcc.symm, hh⟩
        · exact ih l (hs ▸ List.mem_cons_of_mem h hl)

theorem dictFind_filter_ne {buttons : List (String × PyVal)} {key id : String}
    (h : key ≠ id) :
    dictFind (buttons.filter (fun kv => kv.1 != id)) key = dictFind buttons key := by
  induction buttons with
  | nil => rfl
  | cons kv rest ih =>
    obtain ⟨k, v⟩ := kv
    by_cases hk : k = id
    · subst hk
      have : ¬ (k = key) := fun hc => h (hc ▸ rfl)
      simp [dictFind, List.filter, this, ih]
    · simp only [List.filter]
      have : (k != id) = true := by simp [hk]
      rw [this]
      simp only [dictFind, ih]

/-- The character components produced by splitting BTN:(id) at the
colons, when the id itself holds no colon. -/
theorem pySplit_btn (id : String) (h : (':' : Char) ∉ id.data) :
    pySplit ':' ("BTN:" ++ id) = ["BTN", id] := by
  unfold pySplit
  rw [String.data_append]
  rw [show "BTN:".data = ['B', 'T', 'N'] ++ [':'] from rfl, List.append_assoc]
  rw [show ([':'] : List Char) ++ id.data = ':' :: id.data from rfl]
  rw [splitCh_append_sep id.data (by decide), splitCh_no_sep h]
  simp [string_mk_data]

/-- Splitting BTN:(id):(extra): the second component is still the id,
whatever extra holds. -/
theorem pySplit_btn_extra (id extra : String) (h : (':' : Char) ∉ id.data) :
    (pySplit ':' ("BTN:" ++ id ++ ":" ++ extra)).get? 1 = some id := by
  unfold pySplit
  rw [String.data_append, String.data_append, String.data_append]
  rw [show "BTN:".data = ['B', 'T', 'N'] ++ [':'] from rfl]
  rw [List.append_assoc, List.append_assoc, List.append_assoc]
  rw [show ([':'] : List Char) ++ (id.data ++ (":".data ++ extra.data)) =
    ':' :: (id.data ++ ':' :: extra.data) from by simp]
  rw [splitCh_append_sep (id.data ++ ':' :: extra.data) (by decide)]
  rw [splitCh_append_sep extra.data h]
  simp [string_mk_data]

theorem pyStartsWith_btn (rest : String) :
    pyStartsWith "BTN:" ("BTN:" ++ rest) = true := by
  unfold pyStartsWith
  rw [String.data_append]
  exact List.isPrefixOf_iff_prefix.mpr (List.prefix_append _ _)

/-- Claim C2: a BTN:(id) line for a configured button id whose action
kind differs from none triggers exactly one perform call carrying that
very configured action (type and payload from the configuration); a
BTN:(id) line whose id is not configured triggers no perform call, is
only logged (the inbound-line info log), and raises no exception. -/
theorem btn_dispatch_perform_once :
    (∀ (buttons : List (String × PyVal)) (id : String)
       (d ad : List (String × PyVal)) (tv pv : PyVal),
      (':' : Char) ∉ id.data →
      dictFind buttons id = some (.dict d) →
      d ≠ [] →
      dictFind d "action" = some (.dict ad) →
      dictFind ad "type" = some tv →
      tv ≠ .str "none" →
      dictFind ad "payload" = some pv →
      onTransportMessage buttons ("BTN:" ++ id)
        = some [.logRecv ("BTN:" ++ id), .callPerform tv pv]) ∧
    (∀ (buttons : List (String × PyVal)) (id : String),
      (':' : Char) ∉ id.data →
      dictFind buttons id = none →
      onTransportMessage buttons ("BTN:" ++ id) = some [.logRecv ("BTN:" ++ id)]) := by
  constructor
  · intro buttons id d ad tv pv hid hb hd ha ht htn hp
    unfold onTransportMessage processButtonMessage processWithKey
    rw [pyStartsWith_btn id, pySplit_btn id hid]
    simp only [List.get?, hb, pyTruthy, pyGetAttr, ha, ht, hp, dictFind]
    have hdt : (d.isEmpty = true) = False := by
      cases d with
      | nil => exact absurd rfl hd
      | cons a b => simp [List.isEmpty]
    simp [hdt, hd]
  · intro buttons id hid hb
    unfold onTransportMessage processButtonMessage processWithKey
    rw [pyStartsWith_btn id, pySplit_btn id hid]
    simp [List.get?, hb]

theorem btn_dispatch_perform_once_witness :
    onTransportMessage
        [("3", PyVal.dict [("action", PyVal.dict
          [("type", PyVal.str "open_url"), ("payload", PyVal.str "https://example.com")])])]
        ("BTN:" ++ "3")
      = some [.logRecv ("BTN:" ++ "3"),
              .callPerform (PyVal.str "open_url") (PyVal.str "https://example.com")] ∧
    onTransportMessage
        [("3", PyVal.dict [("action", PyVal.dict
          [("type", PyVal.str "open_url"), ("payload", PyVal.str "https://example.com")])])]
        ("BTN:" ++ "9")
      = some [.logRecv ("BTN:" ++ "9")] := by
  constructor
  · exact btn_dispatch_perform_once.1
      [("3", PyVal.dict [("action", PyVal.dict
        [("type", PyVal.str "open_url"), ("payload", PyVal.str "https://example.com")])])]
      "3" _ _ _ _ (by decide) rfl (by simp) rfl rfl (by simp) rfl
  · exact btn_dispatch_perform_once.2
      [("3", PyVal.dict [("action", PyVal.dict
        [("type", PyVal.str "open_url"), ("payload", PyVal.str "https://example.com")])])]
      "9" (by decide) rfl

/-- Claim C10: the dispatcher takes as button id exactly the text
between the first and the second colon — a BTN:(id):(extra) line
dispatches exactly like BTN:(id) with the extra part discarded; a
configured id that itself holds a colon can never influence dispatch
(removing it from the configuration changes nothing); and the bare
line BTN: looks up the empty id, performs nothing, and raises no
exception. -/
theorem btn_id_between_colons :
    (∀ (buttons : List (String × PyVal)) (id extra : String),
      (':' : Char) ∉ id.data →
      processButtonMessage buttons ("BTN:" ++ id ++ ":" ++ extra)
        = processButtonMessage buttons ("BTN:" ++ id)) ∧
    (∀ (buttons : List (String × PyVal)) (text id : String),
      (':' : Char) ∈ id.data →
      processButtonMessage buttons text
        = processButtonMessage (buttons.filter (fun kv => kv.1 != id)) text) ∧
    (∀ buttons : List (String × PyVal),
      dictFind buttons "" = none →
      processButtonMessage buttons "BTN:" = some []) := by
  refine ⟨?_, ?_, ?_⟩
  · intro buttons id extra hid
    unfold processButtonMessage
    rw [show ("BTN:" ++ id ++ ":" ++ extra) = ("BTN:" ++ (id ++ ":" ++ extra)) from by
      simp [String.append_assoc]]
    rw [pyStartsWith_btn (id ++ ":" ++ extra), pyStartsWith_btn id]
    rw [show ("BTN:" ++ (id ++ ":" ++ extra)) = ("BTN:" ++ id ++ ":" ++ extra) from by
      simp [String.append_assoc]]
    rw [pySplit_btn_extra id extra hid, pySplit_btn id hid]
    rfl
  · intro buttons text id hid
    unfold processButtonMessage
    cases hsw : pyStartsWith "BTN:" text with
    | false => rfl
    | true =>
      cases hk : (pySplit ':' text).get? 1 with
      | none => rfl
      | some key =>
        have hkey : key ≠ id := by
          unfold pySplit at hk
          rw [List.get?_map] at hk
          cases hg : (splitCh ':' text.data).get? 1 with
          | none => rw [hg] at hk; exact Option.noConfusion hk
          | some l =>
            rw [hg] at hk
            simp only [Option.map_some'] at hk
            have hmem : l ∈ splitCh ':' text.data := List.get?_mem hg
            have hnosep : (':' : Char) ∉ l := splitCh_mem_no_sep l hmem
            intro hcon
            simp only [Option.some.injEq] at hk
            have : l = id.data := by
              have := congrArg String.data (hk.trans hcon)
              simpa using this
            exact hnosep (this ▸ hid)
        show processWithKey buttons key = processWithKey (buttons.filter (fun kv => kv.1 != id)) key
        unfold processWithKey
        rw [dictFind_filter_ne hkey]
  · intro buttons hb
    unfold processButtonMessage
    rw [show pyStartsWith "BTN:" "BTN:" = true from by decide]
    rw [show (pySplit ':' "BTN:").get? 1 = some "" from by decide]
    simp [processWithKey, hb]

theorem btn_id_between_colons_witness :
    processButtonMessage [("5", PyVal.dict [("x", PyVal.str "y")])]
        ("BTN:" ++ "5" ++ ":" ++ "unused")
      = processButtonMessage [("5", PyVal.dict [("x", PyVal.str "y")])] ("BTN:" ++ "5") ∧
    processButtonMessage [("a:b", PyVal.dict [("x", PyVal.str "y")])] "BTN:a"
      = processButtonMessage
          ([("a:b", PyVal.dict [("x", PyVal.str "y")])].filter (fun kv => kv.1 != "a:b"))
          "BTN:a" ∧
    processButtonMessage [("5", PyVal.dict [("x", PyVal.str "y")])] "BTN:" = some [] := by
  refine ⟨?_, ?_, ?_⟩
  · exact btn_id_between_colons.1 [("5", PyVal.dict [("x", PyVal.str "y")])] "5" "unused"
      (by decide)
  · exact btn_id_between_colons.2.1 [("a:b", PyVal.dict [("x", PyVal.str "y")])] "BTN:a" "a:b"
      (by decide)
  · exact btn_id_between_colons.2.2 [("5", PyVal.dict [("x", PyVal.str "y")])] rfl

/-! ## LED color commands -/

/-- Application state with the serial transport connected. -/
def appSerial0 : AppState := { sm := serialConnected0, wm := WMState.init }

/-- Application state with the Wi-Fi transport connected. -/
def appWifi0 : AppState := { sm := SMState.init, wm := wifiConnected0 }

/-- Claim C9: on a connected transport, the LED color command for
button key k (an integer string) and color c sends exactly the single
line LED:(int(k) - 1):(c with its leading # characters stripped)
followed by a newline, the newline being appended by send_command —
on whichever of the two transports is connected. -/
theorem send_led_color_line (senv : SerialEnv) (wenv : WifiEnv) (app : AppState)
    (key color : String) (n : Int)
    (hkey : pyIntOpt key = some n) :
    (app.sm.isConnected = true → app.sm.heldPort ≠ none → senv.writeFails = false →
      (sendLedColorCommand senv wenv app key color).sm.sent =
        app.sm.sent ++ ["LED:" ++ toString (n - 1) ++ ":" ++
          String.mk (color.data.dropWhile (fun c => c = '#')) ++ "\n"]) ∧
    (app.sm.isConnected = false → app.wm.isConnected = true → app.wm.socketOpen = true →
      wenv.sendFails = false →
      (sendLedColorCommand senv wenv app key color).wm.sent =
        app.wm.sent ++ ["LED:" ++ toString (n - 1) ++ ":" ++
          String.mk (color.data.dropWhile (fun c => c = '#')) ++ "\n"]) := by
  constructor
  · intro hc hp hw
    simp [sendLedColorCommand, hc, hkey, serialSendCommand, hp, hw]
  · intro hsc hc hso hw
    simp [sendLedColorCommand, hsc, hc, hkey, wifiSendCommand, hso, hw]

theorem send_led_color_line_witness :
    pyIntOpt "5" = some 5 ∧
    (sendLedColorCommand serialEnv0 wifiEnv0 appSerial0 "5" "#FF00AA").sm.sent =
      ["CONNECTED\n", "LED:4:FF00AA\n"] ∧
    (sendLedColorCommand serialEnv0 wifiEnv0 appWifi0 "5" "#FF00AA").wm.sent =
      ["CONNECTED\n", "LED:4:FF00AA\n"] := by
  refine ⟨by decide, ?_, ?_⟩
  · have h := (send_led_color_line serialEnv0 wifiEnv0 appSerial0 "5" "#FF00AA" 5
      (by decide)).1 rfl (by decide) rfl
    rw [h]
    decide
  · have h := (send_led_color_line serialEnv0 wifiEnv0 appWifi0 "5" "#FF00AA" 5
      (by decide)).2 rfl rfl rfl rfl
    rw [h]
    decide

/-! ## Window cycling -/

theorem bringToFront_setForeground (env : WinEnv) (h : Nat)
    (hw : env.windowsAvailable = true) (hne : env.foreground ≠ h) :
    WinEffect.setForeground h ∈ bringToFront env h := by
  unfold bringToFront
  simp only [hw, Bool.not_true, Bool.false_eq_true, if_false, hne, if_true]
  by_cases hi : env.iconic h <;> simp [hi, hne]

/-- Claim C4: one toggle invocation launches a new instance when the
window set is empty, minimizes the foreground window when it sits at
the last index of the window set, activates the successor window when
it sits at an earlier index, and activates the first window when the
foreground window is not in the set. -/
theorem toggle_window_cycling (env : WinEnv)
    (hps : env.psutilAvailable = true) (hwin : env.windowsAvailable = true)
    (hiter : env.processIterRaises = false)
    (hnd : (windowSet env).Nodup) :
    (windowSet env = [] → env.pathExists = true →
      toggleApplication env = [.logNoInstance, .startNew]) ∧
    (∀ i : Nat, (windowSet env).get? i = some env.foreground →
      i + 1 = (windowSet env).length →
      toggleApplication env = [.logEndCycle, .minimize env.foreground]) ∧
    (∀ i : Nat, (windowSet env).get? i = some env.foreground →
      i + 1 < (windowSet env).length →
      toggleApplication env =
        WinEffect.logCycling :: bringToFront env ((windowSet env).getD (i + 1) 0) ∧
      WinEffect.setForeground ((windowSet env).getD (i + 1) 0) ∈ toggleApplication env) ∧
    (env.foreground ∉ windowSet env → windowSet env ≠ [] →
      toggleApplication env =
        WinEffect.logBringFront :: bringToFront env ((windowSet env).getD 0 0) ∧
      WinEffect.setForeground ((windowSet env).getD 0 0) ∈ toggleApplication env) := by
  refine ⟨?_, ?_, ?_, ?_⟩
  · intro hempty hpath
    unfold toggleApplication startNewEffects
    simp [hps, hwin, hiter, hempty, hpath]
  · intro i hget hlast
    obtain ⟨hlt, hgetEq⟩ := List.get?_eq_some.mp hget
    have hmem : env.foreground ∈ windowSet env := List.get?_mem hget
    have hidx : (windowSet env).indexOf env.foreground = i := by
      have := List.indexOf_getElem hnd i hlt
      simpa [List.get_eq_getElem, hgetEq] using hgetEq ▸ this
    unfold toggleApplication
    have hne : ¬ (windowSet env).isEmpty := by
      cases hw : windowSet env with
      | nil => rw [hw] at hlt; simp at hlt
      | cons a b => simp [List.isEmpty]
    simp only [hps, hwin, hiter, Bool.not_true, Bool.or_self, Bool.false_eq_true, if_false,
      hne, hmem, if_true]
    simp [hne, hmem, hidx]
    omega
  · intro i hget hlt2
    obtain ⟨hlt, hgetEq⟩ := List.get?_eq_some.mp hget
    have hmem : env.foreground ∈ windowSet env := List.get?_mem hget
    have hidx : (windowSet env).indexOf env.foreground = i := by
      have := List.indexOf_getElem hnd i hlt
      simpa [List.get_eq_getElem, hgetEq] using hgetEq ▸ this
    have hne : ¬ (windowSet env).isEmpty := by
      cases hw : windowSet env with
      | nil => rw [hw] at hlt; simp at hlt
      | cons a b => simp [List.isEmpty]
    have hnotlast : ¬ (i = (windowSet env).length - 1) := by omega
    have htrace : toggleApplication env =
        WinEffect.logCycling :: bringToFront env ((windowSet env).getD (i + 1) 0) := by
      unfold toggleApplication
      simp [hps, hwin, hiter, hne, hmem, hidx, hnotlast]
    have htgt : (windowSet env).getD (i + 1) 0 = (windowSet env).get ⟨i + 1, hlt2⟩ := by
      rw [List.getD_eq_getElem _ _ hlt2]
      simp [List.get_eq_getElem]
    have hfgne : env.foreground ≠ (windowSet env).getD (i + 1) 0 := by
      rw [htgt]
      intro hcon
      have hq : (windowSet env).get? i = (windowSet env).get? (i + 1) := by
        rw [hget]
        symm
        rw [List.get?_eq_some]
        exact ⟨hlt2, hcon.symm⟩
      have := List.get?_inj hlt hnd hq
      omega
    refine ⟨htrace, ?_⟩
    rw [htrace]
    exact List.mem_cons_of_mem _ (bringToFront_setForeground env _ hwin hfgne)
  · intro hnm hnonempty
    have hne : ¬ (windowSet env).isEmpty := by
      cases hw : windowSet env with
      | nil => exact absurd hw hnonempty
      | cons a b => simp [List.isEmpty]
    have htrace : toggleApplication env =
        WinEffect.logBringFront :: bringToFront env ((windowSet env).getD 0 0) := by
      unfold toggleApplication
      simp [hps, hwin, hiter, hne, hnm]
    have hlen : 0 < (windowSet env).length := by
      cases hw : windowSet env with
      | nil => exact absurd hw hnonempty
      | cons a b => simp
    have hfgne : env.foreground ≠ (windowSet env).getD 0 0 := by
      rw [List.getD_eq_getElem _ _ hlen]
      intro hcon
      exact hnm (hcon ▸ List.getElem_mem hlen)
    refine ⟨htrace, ?_⟩
    rw [htrace]
    exact List.mem_cons_of_mem _ (bringToFront_setForeground env _ hwin hfgne)

/-- Host environment with three windows 1, 2, 3 for the target
executable and window 2 in the foreground. -/
def winEnvB : WinEnv :=
  { psutilAvailable := true, windowsAvailable := true, processIterRaises := false,
    procHwnds := [3, 1, 2], windowTitle := fun _ => "w", foreground := 2,
    iconic := fun _ => false, pathExists := true }

/-- Same windows with window 3 (the last) in the foreground. -/
def winEnvC : WinEnv := { winEnvB with foreground := 3 }

/-- Same windows with an unrelated window in the foreground. -/
def winEnvD : WinEnv := { winEnvB with foreground := 99 }

/-- No window for the target executable. -/
def winEnvE : WinEnv := { winEnvB with procHwnds := [] }

theorem windowSetB_eval : windowSet winEnvB = [1, 2, 3] := by
  simp [windowSet, winEnvB, List.filter, List.mergeSort]

theorem windowSetC_eval : windowSet winEnvC = [1, 2, 3] := by
  simp [windowSet, winEnvC, winEnvB, List.filter, List.mergeSort]

theorem windowSetD_eval : windowSet winEnvD = [1, 2, 3] := by
  simp [windowSet, winEnvD, winEnvB, List.filter, List.mergeSort]

theorem windowSetE_eval : windowSet winEnvE = [] := by
  simp [windowSet, winEnvE, winEnvB, List.filter, List.mergeSort]

theorem toggle_window_cycling_witness :
    (toggleApplication winEnvB =
      WinEffect.logCycling :: bringToFront winEnvB ((windowSet winEnvB).getD 2 0) ∧
     WinEffect.setForeground ((windowSet winEnvB).getD 2 0) ∈ toggleApplication winEnvB) ∧
    toggleApplication winEnvC = [.logEndCycle, .minimize winEnvC.foreground] ∧
    (toggleApplication winEnvD =
      WinEffect.logBringFront :: bringToFront winEnvD ((windowSet winEnvD).getD 0 0) ∧
     WinEffect.setForeground ((windowSet winEnvD).getD 0 0) ∈ toggleApplication winEnvD) ∧
    toggleApplication winEnvE = [.logNoInstance, .startNew] := by
  refine ⟨?_, ?_, ?_, ?_⟩
  · exact (toggle_window_cycling winEnvB rfl rfl rfl
      (by rw [windowSetB_eval]; decide)).2.2.1 1
      (by rw [windowSetB_eval]; decide) (by rw [windowSetB_eval]; decide)
  · exact (toggle_window_cycling winEnvC rfl rfl rfl
      (by rw [windowSetC_eval]; decide)).2.1 2
      (by rw [windowSetC_eval]; decide) (by rw [windowSetC_eval]; decide)
  · exact (toggle_window_cycling winEnvD rfl rfl rfl
      (by rw [windowSetD_eval]; decide)).2.2.2
      (by rw [windowSetD_eval]; decide) (by rw [windowSetD_eval]; decide)
  · exact (toggle_window_cycling winEnvE rfl rfl rfl
      (by rw [windowSetE_eval]; decide)).1 windowSetE_eval rfl

/-! ## Mutual exclusivity of the transports -/

theorem serialSendCommand_isConnected (env : SerialEnv) (s : SMState) (c : String) :
    (serialSendCommand env s c).1.isConnected = s.isConnected := by
  unfold serialSendCommand
  by_cases h1 : (s.isConnected = true ∧ s.heldPort ≠ none) <;>
    by_cases h2 : env.writeFails = true <;> simp [h1, h2]

theorem wifiSendCommand_connected_mono (env : WifiEnv) (w : WMState) (c : String)
    (h : (wifiSendCommand env w c).1.isConnected = true) : w.isConnected = true := by
  unfold wifiSendCommand at h
  by_cases h1 : (w.isConnected = true ∧ w.socketOpen = true)
  · exact h1.1
  · simp [h1] at h
    exact h

theorem sendLedColor_connected (senv : SerialEnv) (wenv : WifiEnv) (app : AppState)
    (key color : String) :
    (sendLedColorCommand senv wenv app key color).sm.isConnected = app.sm.isConnected ∧
    ((sendLedColorCommand senv wenv app key color).wm.isConnected = true →
      app.wm.isConnected = true) := by
  unfold sendLedColorCommand
  by_cases h1 : (¬ app.sm.isConnected = true ∧ ¬ app.wm.isConnected = true)
  · simp [h1]
  · simp only [h1, if_false]
    cases hk : pyIntOpt key with
    | none => simp
    | some n =>
      by_cases h2 : app.sm.isConnected = true
      · simp [h2, serialSendCommand_isConnected]
      · have h2f : app.sm.isConnected = false := by simpa using h2
        simp only [h2f, Bool.false_eq_true, if_false]
        exact ⟨trivial, wifiSendCommand_connected_mono wenv app.wm _⟩

/-- Claim C7: in every state the application can reach, at most one of
the two transport managers is connected — every operation that
activates one transport first forces the other to disconnected. -/
theorem single_transport_connected (app : AppState) (h : Reachable app) :
    ¬ (app.sm.isConnected = true ∧ app.wm.isConnected = true) := by
  induction h with
  | init => simp [AppState.init, SMState.init, WMState.init]
  | step op hr ih =>
    rename_i prev
    cases op with
    | connect senv wenv kind port =>
      cases kind with
      | serial =>
        by_cases hwc : prev.wm.isConnected = true <;>
          simp [appStep, connectAny, wifiDisconnect, hwc]
      | wifi =>
        by_cases hsc : prev.sm.isConnected = true <;>
          simp [appStep, connectAny, serialDisconnect, hsc]
    | disconnectAll senv wenv =>
      simp [appStep, disconnectAny, serialDisconnect, wifiDisconnect]
    | serialReaderExit =>
      simp [appStep, serialReaderFinally]
    | wifiReaderExit wenv =>
      simp [appStep, wifiReaderFinally, wifiDisconnect]
    | serialSend senv cmd =>
      intro hcon
      exact ih ⟨(serialSendCommand_isConnected senv prev.sm cmd) ▸ hcon.1, hcon.2⟩
    | wifiSend wenv cmd =>
      intro hcon
      exact ih ⟨hcon.1, wifiSendCommand_connected_mono wenv prev.wm cmd hcon.2⟩
    | ledColor senv wenv key color =>
      intro hcon
      obtain ⟨heq, hmono⟩ := sendLedColor_connected senv wenv prev key color
      exact ih ⟨heq ▸ hcon.1, hmono hcon.2⟩

theorem single_transport_connected_witness :
    ¬ ((appStep AppState.init
          (AppOp.connect serialEnv0 wifiEnv0 ConnKind.serial "COM3")).sm.isConnected = true ∧
        (appStep AppState.init
          (AppOp.connect serialEnv0 wifiEnv0 ConnKind.serial "COM3")).wm.isConnected = true) :=
  single_transport_connected _
    (Reachable.step (AppOp.connect serialEnv0 wifiEnv0 ConnKind.serial "COM3") Reachable.init)

end StreamDeck
